import Mathlib

/-!
A shallow embedding of the EMS-bus layer-2 driver
(files `emsbus.py`, `bfsm.py` and `watchdog.py` of
wnelis/EMSbus-raspberry-python) together with a verification of its
natural-language specification against the code.

Conventions.
Byte buffers are `List Nat`; Python integers are unbounded, and the source
masks with `& 0xff` only where shown, so the embedding does the same.
Queue payloads and FSM stimuli are `String`s, exactly as in the source.
A Python statement that would raise (`ValueError`, `TypeError`) is modelled
with `Option` or `Except`.  The two loops of the source that walk a buffer
with a moving search offset (the unescape loop of `_handle_iframe` and the
break scanner of `reader`) are written with an explicit fuel argument; the
fuel supplied by their wrappers strictly dominates the loops' decreasing
measure (buffer length minus search offset), so the out-of-fuel branch is
never reached.

`emsbus.py` constructs its two state machines as `Bfsm(matrix, state-action
vector)`; the dispatcher models below follow that calling convention (the
state-action vector is the second argument, and the bound event-action
methods run on the `Emsbus` instance).
-/

/-- emsbus.py: octet offset of the destination field of a frame. -/
def EMS_Destin : Nat := 1

/-- emsbus.py `EMS_Write_reply`: the two write-reply codes. -/
def EMS_Write_reply : List Nat := [0x01, 0x04]

/-- emsbus.py: minimum frame size of RQ, RP or WQ, excluding the checksum. -/
def EMSBUS_Min_frame_size : Nat := 4

/-- emsbus.py: maximum frame size of RQ, RP or WQ, excluding the checksum. -/
def EMSBUS_Max_frame_size : Nat := 34

/-- emsbus.py: the monitor-mode selector. -/
def EMSBUS_MODE_MONITOR : Nat := 1

/-- emsbus.py `SERIAL_Escape`: the escape octet `0xff`. -/
def SERIAL_Escape : Nat := 0xff

/-- emsbus.py `SERIAL_Break`: the three-octet break marker `b'\xff\x00\x00'`. -/
def SERIAL_Break : List Nat := [0xff, 0x00, 0x00]

/-- emsbus.py `_handle_iframe`: the sentinel `b'ERR'`, the ASCII octets E, R, R. -/
def errSentinel : List Nat := [0x45, 0x52, 0x52]

/-- The rotation performed on the checksum accumulator before each input byte
(`_calc_checksum`, emsbus.py line 653): when bit `0x80` of the accumulator is
set, the new value is `((chks ^ mask) << 1) | 0x01` with `mask = 0x0c`,
otherwise `chks << 1`. -/
def chkRotate (chks : Nat) : Nat :=
  if chks &&& 0x80 ≠ 0 then ((chks ^^^ 0x0c) <<< 1) ||| 0x01 else chks <<< 1

/-- The loop `for i in range(len(bfr)-1)` of `_calc_checksum` (emsbus.py
lines 652-654): every byte except the last one is folded into the
accumulator, first rotating, then XOR-ing the byte in. -/
def calcChecksumAux (chks : Nat) : List Nat → Nat
  | [] => chks
  | b :: rest => if rest = [] then chks else calcChecksumAux (chkRotate chks ^^^ b) rest

/-- `Emsbus._calc_checksum` (emsbus.py lines 646-656).  `none` models the
`ValueError` raised for a buffer shorter than two octets; otherwise the loop
result masked to 8 bits is returned. -/
def calc_checksum (bfr : List Nat) : Option Nat :=
  if bfr.length < 2 then none
  else some (calcChecksumAux 0x00 bfr &&& 0xff)

/-- Modelled from the spec's checksum sentence: one step of the reference
algorithm - if the accumulator's high bit (0x80) is set, replace it by
`((acc XOR 0x0c) << 1) | 1`, otherwise by `acc << 1`, then XOR in the input
byte. -/
def chkStep (acc b : Nat) : Nat :=
  (if acc &&& 0x80 ≠ 0 then ((acc ^^^ 0x0c) <<< 1) ||| 0x01 else acc <<< 1) ^^^ b

/-- Modelled from the spec's checksum sentence: iterate `chkStep` over all
bytes except the last (checksum) byte, accumulator initialised to 0, and mask
the result to 8 bits. -/
def checksum_spec (bfr : List Nat) : Nat :=
  (bfr.dropLast.foldl chkStep 0) &&& 0xff

/-- The checksum folded over all bytes of a list (no byte dropped); this is
the value the writer appends, since it runs `_calc_checksum` on the frame
with one scratch octet already appended. -/
def checksum_full (l : List Nat) : Nat := (l.foldl chkStep 0) &&& 0xff

/-- Python `bytearray.find(value, start)` for a single octet: the smallest
index `i ≥ start` holding `v`, if any. -/
def findByteFrom (l : List Nat) (v : Nat) (start : Nat) : Option Nat :=
  (List.range l.length).find? (fun i => decide (start ≤ i ∧ l.getD i 0 = v))

/-- The character-handling loop of `_handle_iframe` (emsbus.py lines
684-700): starting the search at `pos`, find the next escape octet at `p`;
`octpos = p + 1` then points at the octet after it.  A doubled escape is
collapsed (the copy at `octpos` is removed); an escape followed by `0x00`
removes both marker octets, keeps the following (erred) data octet in place
and counts one error; any other follower is left alone.  The search resumes
at `octpos` on the (possibly shortened) buffer.  The fuel dominates the
decreasing measure `l.length - pos`, so the `0` branch is unreachable from
`unescape`. -/
def unescapeAux : Nat → List Nat → Nat → Nat → List Nat × Nat
  | 0, l, _, err => (l, err)
  | fuel + 1, l, pos, err =>
    match findByteFrom l SERIAL_Escape pos with
    | none => (l, err)
    | some p =>
      if l.length ≤ p + 1 then (l, err)
      else if l.getD (p + 1) 0 = SERIAL_Escape then
        (if p + 2 < l.length then
          unescapeAux fuel (l.take (p + 1) ++ l.drop (p + 2)) (p + 1) err
        else (l.take (p + 1), err))
      else if l.getD (p + 1) 0 = 0x00 then
        (if p + 2 < l.length then
          unescapeAux fuel (l.take p ++ l.drop (p + 2)) (p + 1) (err + 1)
        else unescapeAux fuel l (p + 1) err)
      else unescapeAux fuel l (p + 1) err

/-- The unescape phase of `_handle_iframe`: returns the cleaned buffer and
the number of framing errors found (`iframe_error`). -/
def unescape (l : List Nat) : List Nat × Nat := unescapeAux (l.length + 1) l 0 0

/-- Increments `_handle_iframe` applies to the statistics dictionary `sbs`. -/
structure FramerDeltas where
  totalFrames : Nat := 0
  totalOctets : Nat := 0
  echoFrames : Nat := 0
  emptyFrames : Nat := 0
  shortFrames : Nat := 0
  errors : Nat := 0
  errFrames : Nat := 0
  errOctets : Nat := 0
  emsplusFrames : Nat := 0
  deriving DecidableEq

/-- Outcome of `_handle_iframe` on one terminated raw frame: the frames
enqueued on `iframe_queue` (none or one), the updated egress-echo
fingerprint `eframe`, the arguments of the optional `idisp_log` callback
(frame and computed checksum, time not modelled), and the counter
increments. -/
structure FramerResult where
  queued : List (List Nat)
  eframe : Option (List Nat)
  log : Option (List Nat × Option Nat)
  d : FramerDeltas
  deriving DecidableEq

/-- `_handle_iframe` after the unescape phase (emsbus.py lines 708-775):
echo suppression, accounting, and the branch ladder on the error count and
the frame length.  `eframe` is the pending egress fingerprint, `f` the
unescaped frame, `err` the framing-error count. -/
def frame_dispatch (eframe : Option (List Nat)) (f : List Nat) (err : Nat) :
    FramerResult :=
  if eframe = some f then
    { queued := [], eframe := none, log := none, d := { echoFrames := 1 } }
  else if 0 < err then
    { queued := [errSentinel], eframe := eframe, log := none,
      d := { totalFrames := 1, totalOctets := f.length + 1, errors := err,
             errFrames := 1, errOctets := f.length + 1 } }
  else if f.length = 0 then
    { queued := [], eframe := eframe, log := none,
      d := { totalFrames := 1, totalOctets := f.length + 1, emptyFrames := 1 } }
  else if f.length = 1 then
    { queued := [f], eframe := eframe, log := none,
      d := { totalFrames := 1, totalOctets := f.length + 1 } }
  else if f.length ≤ EMSBUS_Min_frame_size then
    { queued := [errSentinel], eframe := eframe, log := some (f, none),
      d := { totalFrames := 1, totalOctets := f.length + 1, shortFrames := 1 } }
  else if f.getD (f.length - 1) 0 = calcChecksumAux 0x00 f &&& 0xff then
    { queued := [f.dropLast], eframe := eframe, log := none,
      d := { totalFrames := 1, totalOctets := f.length + 1,
             emsplusFrames := if 0xf0 ≤ f.getD 2 0 then 1 else 0 } }
  else
    { queued := [errSentinel], eframe := eframe,
      log := some (f, some (calcChecksumAux 0x00 f &&& 0xff)),
      d := { totalFrames := 1, totalOctets := f.length + 1,
             errFrames := 1, errOctets := f.length + 1 } }

/-- `_handle_iframe` (emsbus.py lines 679-775) on a raw terminated frame:
unescape, then dispatch. -/
def handle_iframe (eframe : Option (List Nat)) (raw : List Nat) : FramerResult :=
  frame_dispatch eframe (unescape raw).1 (unescape raw).2

/-- Increments `ingress_dispatcher` applies to the statistics dictionary. -/
structure IdispDeltas where
  polreq : Nat := 0
  polrep : Nat := 0
  wrirep : Nat := 0
  rearep : Nat := 0
  reareq : Nat := 0
  conflict : Nat := 0
  deriving DecidableEq

/-- The frame-type determination of `ingress_dispatcher` (emsbus.py lines
977-1002), per queue entry.  A single octet is a poll request (high bit
set), a write reply (one of the write-reply codes) or a poll reply (with the
address-conflict check); a two-octet entry is the signal branch, which for a
byte frame raises a `TypeError` (`'xmt' + frame.lower()` concatenates a
`str` with a `bytearray`), modelled as `Except.error`; the sentinel `b'ERR'`
becomes `errfrm`; anything else is classified by its destination octet. -/
def idisp_classify (mode device : Nat) (frame : List Nat) :
    Except Unit (String × IdispDeltas) :=
  if frame.length = 1 then
    (if frame.getD 0 0 &&& 0x80 ≠ 0 then
      Except.ok (("polreq"), { polreq := 1 })
    else if frame.getD 0 0 ∈ EMS_Write_reply then
      Except.ok (("wrirep"), { wrirep := 1 })
    else
      Except.ok (("polrep"),
        { polrep := 1,
          conflict :=
            if mode ≠ EMSBUS_MODE_MONITOR ∧ frame.getD 0 0 = device then 1
            else 0 }))
  else if frame.length = 2 then Except.error ()
  else if frame = errSentinel then Except.ok (("errfrm"), {})
  else if frame.getD EMS_Destin 0 = 0 then Except.ok (("rearep"), { rearep := 1 })
  else if frame.getD EMS_Destin 0 &&& 0x80 ≠ 0 then
    Except.ok (("reareq"), { reareq := 1 })
  else Except.ok (("rporwq"), {})

/-- Python `bytes.find(pattern, start)`: the smallest index `i ≥ start` at
which `pattern` occurs as a contiguous sub-sequence, if any. -/
def bfind (l pat : List Nat) (start : Nat) : Option Nat :=
  (List.range l.length).find?
    (fun i => decide (start ≤ i ∧ (l.drop i).take pat.length = pat))

/-- `reader` (emsbus.py lines 1055-1061): the number of consecutive escape
octets at the end of the frame buffer (0 when the buffer does not end in an
escape octet). -/
def trailingEsc (l : List Nat) : Nat :=
  (l.reverse.takeWhile (fun x => x == SERIAL_Escape)).length

/-- The inner `while len(data) > 0` loop of `reader` (emsbus.py lines
1039-1066).  `iframe` is the frame buffer, `data` the remaining chunk, `so`
the search offset, `acc` the raw frames handed to `_handle_iframe` so far.
Locate the next break marker; move everything before it into the frame
buffer; count the escape octets at the end of the buffer; an even count
means a real break (consume the marker, deliver the buffer, flush it), an
odd count means the marker is data (re-scan from offset 1).  The fuel
dominates the loop's decreasing lexicographic measure, so the `0` branch is
unreachable from `readerChunk`. -/
def readerLoopAux :
    Nat → List Nat → List Nat → Nat → List (List Nat) →
    List Nat × List (List Nat)
  | 0, iframe, _, _, acc => (iframe, acc)
  | fuel + 1, iframe, data, so, acc =>
    if data = [] then (iframe, acc)
    else
      match bfind data SERIAL_Break so with
      | none => (iframe ++ data, acc)
      | some p =>
        if trailingEsc (iframe ++ data.take p) % 2 = 0 then
          readerLoopAux fuel [] ((data.drop p).drop SERIAL_Break.length) 0
            (acc ++ [iframe ++ data.take p])
        else
          readerLoopAux fuel (iframe ++ data.take p) (data.drop p) 1 acc

/-- One received chunk processed by `reader`: returns the final frame buffer
and the raw frames delivered to `_handle_iframe`, in order. -/
def readerChunk (iframe data : List Nat) : List Nat × List (List Nat) :=
  readerLoopAux (2 * data.length + 4) iframe data 0 []

/-- The queues of `Emsbus`, named after the instance attributes:
`iframe_queue` (reader and writer signals toward `ingress_dispatcher`, per
the code's comments), `idisp_queue` (ingress dispatcher toward
`read_frame`), `edisp_queue` (toward `egress_dispatcher`) and
`eframe_queue` (toward `writer`). -/
inductive QueueName
  | iframeQ
  | idispQ
  | edispQ
  | eframeQ
  deriving DecidableEq

/-- An observable action of the `writer` thread, in program order. -/
inductive WAct
  | putQ (q : QueueName) (item : String)
  | uartWrite (b : List Nat)
  | sendBreak
  deriving DecidableEq

/-- `writer` (emsbus.py lines 1099-1102): when the dequeued frame has at
least `EMSBUS_Min_frame_size` octets, one scratch octet `0x00` is appended
and then overwritten (`eframe[-1]=`) with `_calc_checksum` of the enlarged
buffer; shorter frames are sent as they are. -/
def writer_eframe (frame : List Nat) : List Nat :=
  if EMSBUS_Min_frame_size ≤ frame.length then
    (frame ++ [0x00]).set ((frame ++ [0x00]).length - 1)
      (calcChecksumAux 0x00 (frame ++ [0x00]) &&& 0xff)
  else frame

/-- The trace of one iteration of the `writer` loop (emsbus.py lines
1089-1145) on a dequeued record `{Frame, Type}`: checksum handling, the
request signal (`'RQ'`/`'WQ'` put on `idisp_queue`, lines 1108-1111), the
UART write (octet by octet with pacing when this device is the bus master
`0x0b`, otherwise in one buffer), the break, and the `'XD'` signal toward
`egress_dispatcher` after a broadcast read reply.  Sleeps and statistics
updates are not observable actions of the trace. -/
def writer_trace (device : Nat) (frame : List Nat) (ty : String) : List WAct :=
  (if ty = ("reareq") then [WAct.putQ QueueName.idispQ ("RQ")]
   else if ty = ("wrireq") then [WAct.putQ QueueName.idispQ ("WQ")]
   else [])
  ++ (if device = 0x0b then (writer_eframe frame).map (fun x => WAct.uartWrite [x])
      else [WAct.uartWrite (writer_eframe frame)])
  ++ [WAct.sendBreak]
  ++ (if ty = ("rearep") ∧ (writer_eframe frame).getD EMS_Destin 0 = 0 then
        [WAct.putQ QueueName.edispQ ("XD")]
      else [])

/-- The octet sequence a writer trace emits on the UART, in order. -/
def uartFlat : List WAct → List Nat
  | [] => []
  | WAct.uartWrite b :: rest => b ++ uartFlat rest
  | _ :: rest => uartFlat rest

/-- `ingress_dispatcher` (emsbus.py line 969) reads its entries from
`iframe_queue`. -/
def ingress_dispatcher_input : QueueName := QueueName.iframeQ

/-- `read_frame` (emsbus.py line 913) hands the application entries of
`idisp_queue`. -/
def read_frame_input : QueueName := QueueName.idispQ

/-- The bookkeeping fields of `Bfsm` (bfsm.py lines 116-119). -/
structure BfsmCore where
  State : String
  PrvState : Option String
  NxtState : Option String
  Stimulus : Option String
  deriving DecidableEq

/-- One iteration of `Bfsm._Interpret` on a fetched stimulus: the updated
bookkeeping, whether the event action of the matrix row was invoked, and the
name of that action. -/
structure BfsmStepResult where
  fsm : BfsmCore
  eventActionRan : Bool
  action : String
  deriving DecidableEq

/-- The body of the `while` loop of `Bfsm._Interpret` (bfsm.py lines
136-149) for one fetched stimulus `stim`.  The matrix row gives the new
state and the event action.  When a state-action vector is present and holds
an action for the current state, `NxtState` is published and the state
action runs; a `False` result `continue`s the loop, skipping the event
action and the assignments to `PrvState` and `State`.  The state action is
modelled by its boolean result (`staAct` returns `none` where the vector
holds `None`). -/
def bfsmStep (matrix : String → String → String × String)
    (staAct : Option (String → Option Bool)) (fsm : BfsmCore) (stim : String) :
    BfsmStepResult :=
  let NewState := (matrix fsm.State stim).1
  let Action := (matrix fsm.State stim).2
  let fsm1 : BfsmCore := { fsm with Stimulus := some stim }
  let committed : BfsmCore := { fsm1 with PrvState := some fsm1.State, State := NewState, NxtState := none }
  match staAct with
  | none =>
    { fsm := committed, eventActionRan := true, action := Action }
  | some sa =>
    match sa fsm1.State with
    | none =>
      { fsm := committed, eventActionRan := true, action := Action }
    | some b =>
      if b then
        { fsm := committed, eventActionRan := true, action := Action }
      else
        { fsm := { fsm1 with NxtState := some NewState },
          eventActionRan := false, action := Action }

/-- A transition matrix with a single row, used to exercise `bfsmStep` at a
concrete input: every pair goes to state `Next` with event action `act`. -/
def cexMatrix : String → String → String × String := fun _ _ => (("Next"), ("act"))

/-- A state-action vector whose action always reports `False`. -/
def cexStaAct : String → Option Bool := fun _ => some false

/-- A concrete `Bfsm` bookkeeping state in state `Init`. -/
def cexFsm : BfsmCore :=
  { State := ("Init"), PrvState := none, NxtState := none, Stimulus := none }

/-- An entry of the egress-input queue `edisp_queue`: either a byte frame
handed in by the application, or one of the two-character signal strings
(`'PQ'`, `'RQ'`, `'WQ'`, `'XD'`). -/
inductive EdispInput
  | bytes (f : List Nat)
  | signal (s : String)
  deriving DecidableEq

/-- Increments `egress_dispatcher` applies to the statistics dictionary
before the FSM is invoked. -/
structure EdispDeltas where
  total : Nat := 0
  octets : Nat := 0
  errShort : Nat := 0
  errLong : Nat := 0
  deriving DecidableEq

/-- The zero increment. -/
def edispZero : EdispDeltas := {}

/-- Result of the pre-FSM stage of one `egress_dispatcher` iteration:
`fsmEvent` is the stimulus handed to `edisp_fsm.HandleEvent` (emsbus.py
lines 955-958), `none` when the entry is dropped without invoking the FSM;
`d` are the counter increments. -/
structure EdispStepResult where
  fsmEvent : Option String
  d : EdispDeltas
  deriving DecidableEq

/-- The classification stage of one `egress_dispatcher` iteration (emsbus.py
lines 928-958).  A single octet is a write reply only when it is one of the
write-reply codes, otherwise the type stays `None`; a two-entry item is the
signal branch, where `'rcv' + frame.lower()` raises a `TypeError` for a byte
frame (modelled as `Except.error`); shorter than the minimum or longer than
the maximum frame size is counted and dropped; otherwise the destination
octet decides. -/
def edisp_step : EdispInput → Except Unit EdispStepResult
  | EdispInput.signal sg =>
    if sg.length = 2 then
      Except.ok { fsmEvent := some (("rcv") ++ sg.toLower), d := edispZero }
    else Except.error ()
  | EdispInput.bytes f =>
    if f.length = 1 then
      Except.ok { fsmEvent := if f.getD 0 0 ∈ EMS_Write_reply then some ("wrirep") else none, d := edispZero }
    else if f.length = 2 then Except.error ()
    else if f.length < EMSBUS_Min_frame_size then
      Except.ok { fsmEvent := none, d := { total := 1, octets := f.length + 1, errShort := 1 } }
    else if EMSBUS_Max_frame_size < f.length then
      Except.ok { fsmEvent := none, d := { total := 1, octets := f.length + 1, errLong := 1 } }
    else if f.getD EMS_Destin 0 = 0 then
      Except.ok { fsmEvent := some ("rearep"), d := edispZero }
    else if f.getD EMS_Destin 0 &&& 0x80 ≠ 0 then
      Except.ok { fsmEvent := some ("reareq"), d := edispZero }
    else
      Except.ok { fsmEvent := some ("rporwq"), d := edispZero }

/-- The state touched by the monitor-mode egress pipeline: the statistics
counters, the writer queue `eframe_queue`, the FSM state and the dispatcher
frame registers. -/
structure MonitorEgressState where
  total : Nat
  octets : Nat
  errShort : Nat
  errLong : Nat
  eframeQueue : List (List Nat × String)
  fsmState : String
  edispFrame : Option (List Nat)
  edispType : Option String
  deriving DecidableEq

/-- The monitor-mode egress transition matrix
(`FSMDT[EMSBUS_MODE_MONITOR]['egress']`, emsbus.py lines 451-463): a single
state `Init`; the four signals map to `efsm_do_nothing`, the five frame
kinds to `efsm_ignore_frame`; `none` models the `KeyError` of a missing
entry. -/
def monitorEgressMatrix (st stim : String) : Option (String × String) :=
  if st = ("Init") then
    match stim with
    | "rcvpq" => some ((("Init"), ("efsm_do_nothing")))
    | "rcvrq" => some ((("Init"), ("efsm_do_nothing")))
    | "rcvwq" => some ((("Init"), ("efsm_do_nothing")))
    | "rcvxd" => some ((("Init"), ("efsm_do_nothing")))
    | "reareq" => some ((("Init"), ("efsm_ignore_frame")))
    | "rearep" => some ((("Init"), ("efsm_ignore_frame")))
    | "wrireq" => some ((("Init"), ("efsm_ignore_frame")))
    | "wrirep" => some ((("Init"), ("efsm_ignore_frame")))
    | "rporwq" => some ((("Init"), ("efsm_ignore_frame")))
    | _ => none
  else none

/-- The effect of the two event actions occurring in the monitor-mode egress
matrix: `efsm_ignore_frame` clears the frame reference, `efsm_do_nothing`
leaves the state alone.  Neither touches a counter or a queue. -/
def applyMonitorEgressAction (act : String) (s : MonitorEgressState) :
    MonitorEgressState :=
  if act = ("efsm_ignore_frame") then { s with edispFrame := none } else s

/-- One iteration of `egress_dispatcher` (emsbus.py lines 927-958) in
monitor mode, on a byte frame handed in by the application: classify and
count, and when a type was determined, store the frame registers and run the
FSM on the stimulus (the monitor state-action vector holds `None` for
`Init`, so the event action always runs). -/
def edisp_monitor_iter (s : MonitorEgressState) (f : List Nat) :
    Except Unit MonitorEgressState :=
  match edisp_step (EdispInput.bytes f) with
  | Except.error e => Except.error e
  | Except.ok r =>
    let s1 := { s with total := s.total + r.d.total, octets := s.octets + r.d.octets, errShort := s.errShort + r.d.errShort, errLong := s.errLong + r.d.errLong }
    match r.fsmEvent with
    | none => Except.ok s1
    | some t =>
      let s2 := { s1 with edispFrame := some f, edispType := some t }
      match monitorEgressMatrix s2.fsmState t with
      | none => Except.error ()
      | some (ns, act) =>
        Except.ok { applyMonitorEgressAction act s2 with fsmState := ns }

/-- The `egress_dispatcher` loop in monitor mode over a sequence of
application frames (the order in which `write_frame` enqueued them).  A
raised exception kills the dispatcher thread, freezing the state. -/
def edisp_monitor_run (s : MonitorEgressState) : List (List Nat) → MonitorEgressState
  | [] => s
  | f :: r =>
    match edisp_monitor_iter s f with
    | Except.ok s1 => edisp_monitor_run s1 r
    | Except.error _ => s

/-- The state of a freshly opened driver: all counters zero, writer queue
empty, egress FSM in `Init`. -/
def edispMonitorInit : MonitorEgressState :=
  { total := 0, octets := 0, errShort := 0, errLong := 0, eframeQueue := [], fsmState := ("Init"), edispFrame := none, edispType := none }

/-- Modelled from the spec: method `write_frame(frame, kind)` is not present
under src/; the spec's operations table says it enqueues the frame on the
egress-input queue read by `egress_dispatcher`.  The dispatcher models above
therefore consume the enqueued frames in order. -/
def write_frame (q : List (List Nat)) (frame : List Nat) : List (List Nat) :=
  q ++ [frame]

/-- A `threading.Timer` as the watchdog uses it: the interval and handler it
was created with, and whether it is running (`is_alive`).  The dummy timer
created by `WatchdogTimer.__init__` is never started, hence not alive. -/
structure PyTimer where
  interval : Option Nat
  callback : Option Nat
  alive : Bool
  deriving DecidableEq

/-- The instance state of `watchdog.WatchdogTimer`: the recorded parameters
(`handler = none` models the default `_handler`) and the current timer. -/
structure WatchdogState where
  timeout : Option Nat
  handler : Option Nat
  timer : PyTimer
  deriving DecidableEq

/-- `WatchdogTimer._start` (watchdog.py lines 42-49): cancel and join a
running timer, then create and start a new one from the recorded parameters;
always returns `True`. -/
def wdt_arm (s : WatchdogState) : WatchdogState × Bool :=
  ({ s with timer := { interval := s.timeout, callback := s.handler, alive := true } }, true)

/-- `WatchdogTimer.start` (watchdog.py lines 67-72): reject a missing
timeout, otherwise record the parameters and arm. -/
def wdt_start (timeout handlerArg : Option Nat) (s : WatchdogState) :
    WatchdogState × Bool :=
  match timeout with
  | none => (s, false)
  | some t => wdt_arm { s with timeout := some t, handler := handlerArg }

/-- `WatchdogTimer.reset` (watchdog.py lines 57-60): `False` when no timeout
was ever recorded, otherwise re-arm from the recorded parameters. -/
def wdt_reset (s : WatchdogState) : WatchdogState × Bool :=
  if s.timeout = none then (s, false) else wdt_arm s

/-- `WatchdogTimer.stop` (watchdog.py lines 78-84): cancel and join when the
timer is alive and report `True`, otherwise report `False`. -/
def wdt_stop (s : WatchdogState) : WatchdogState × Bool :=
  if s.timer.alive then ({ s with timer := { s.timer with alive := false } }, true)
  else (s, false)

/-!
### Theorems

Helper lemmas first, then one theorem per claim (with its witness or
counterexample).
-/

/-- The checksum loop equals a left fold of `chkStep` over all bytes but the
last. -/
theorem calcAux_eq_foldl (l : List Nat) :
    ∀ c : Nat, calcChecksumAux c l = l.dropLast.foldl chkStep c := by
  induction l with
  | nil => intro c; simp [calcChecksumAux]
  | cons b rest ih =>
    intro c
    cases rest with
    | nil => simp [calcChecksumAux]
    | cons y t =>
      rw [show calcChecksumAux c (b :: y :: t)
            = calcChecksumAux (chkRotate c ^^^ b) (y :: t) from by
          simp [calcChecksumAux]]
      rw [ih]
      rw [show (b :: y :: t).dropLast = b :: (y :: t).dropLast from rfl]
      rw [List.foldl_cons]
      rfl

/-- C1: `_calc_checksum`, applied to any byte buffer of length at least 2,
returns exactly the spec's reference checksum (iterate over all bytes except
the last with accumulator 0 and mask 0x0c, rotating then XOR-ing, result
masked to 8 bits). -/
theorem C1_checksum_refines_spec (bfr : List Nat) (h : 2 ≤ bfr.length) :
    calc_checksum bfr = some (checksum_spec bfr) := by
  unfold calc_checksum checksum_spec
  rw [if_neg (by omega), calcAux_eq_foldl]

/-- Witness for C1 at the concrete buffer `[0x08, 0x10, 0x18, 0x00, 0x7d]`. -/
theorem C1_witness :
    2 ≤ ([0x08, 0x10, 0x18, 0x00, 0x7d] : List Nat).length ∧
    calc_checksum [0x08, 0x10, 0x18, 0x00, 0x7d]
      = some (checksum_spec [0x08, 0x10, 0x18, 0x00, 0x7d]) :=
  ⟨by decide, C1_checksum_refines_spec _ (by decide)⟩

/-- Overwriting the last element of `l ++ [a]` yields `l ++ [v]`. -/
theorem set_snoc (l : List Nat) (a v : Nat) :
    (l ++ [a]).set l.length v = l ++ [v] := by
  induction l with
  | nil => rfl
  | cons x xs ih => simp [List.set, ih]

/-- The writer's checksum handling, in closed form: a frame of at least the
minimum size is emitted as the frame followed by the checksum folded over
all its bytes. -/
theorem writer_eframe_eq (frame : List Nat) (h : 4 ≤ frame.length) :
    writer_eframe frame = frame ++ [checksum_full frame] := by
  unfold writer_eframe
  rw [if_pos (by simpa [EMSBUS_Min_frame_size] using h)]
  have hl : (frame ++ [0x00]).length - 1 = frame.length := by simp
  rw [hl, set_snoc]
  have hc : calcChecksumAux 0x00 (frame ++ [0x00]) &&& 0xff = checksum_full frame := by
    rw [calcAux_eq_foldl, List.dropLast_concat]
    rfl
  rw [hc]

/-- `uartFlat` distributes over trace concatenation. -/
theorem uartFlat_append (x y : List WAct) :
    uartFlat (x ++ y) = uartFlat x ++ uartFlat y := by
  induction x with
  | nil => rfl
  | cons a t ih => cases a <;> simp [uartFlat, ih]

/-- The per-octet writes of bus-master pacing flatten to the frame itself. -/
theorem uartFlat_map_single (ef : List Nat) :
    uartFlat (ef.map (fun x => WAct.uartWrite [x])) = ef := by
  induction ef with
  | nil => rfl
  | cons x xs ih => simp [uartFlat, ih]

/-- C3: for every egress frame of length at least 4 dequeued by the writer,
the octet sequence emitted on the UART is the frame's bytes followed by
exactly one octet holding the checksum computed over those bytes. -/
theorem C3_writer_appends_checksum (device : Nat) (frame : List Nat)
    (ty : String) (h : 4 ≤ frame.length) :
    uartFlat (writer_trace device frame ty) = frame ++ [checksum_full frame] := by
  have hm : uartFlat (writer_trace device frame ty) = writer_eframe frame := by
    unfold writer_trace
    rw [uartFlat_append, uartFlat_append, uartFlat_append]
    have h1 : uartFlat
        (if ty = ("reareq") then [WAct.putQ QueueName.idispQ ("RQ")]
         else if ty = ("wrireq") then [WAct.putQ QueueName.idispQ ("WQ")]
         else []) = [] := by
      split_ifs <;> rfl
    have h2 : uartFlat
        (if device = 0x0b then
          (writer_eframe frame).map (fun x => WAct.uartWrite [x])
         else [WAct.uartWrite (writer_eframe frame)]) = writer_eframe frame := by
      split_ifs
      · exact uartFlat_map_single _
      · simp [uartFlat]
    have h4 : uartFlat
        (if ty = ("rearep") ∧ (writer_eframe frame).getD EMS_Destin 0 = 0 then
          [WAct.putQ QueueName.edispQ ("XD")]
         else []) = [] := by
      split_ifs <;> rfl
    rw [h1, h2, h4]
    simp [uartFlat]
  rw [hm, writer_eframe_eq frame h]

/-- Witness for C3 at a concrete read-request frame of five octets. -/
theorem C3_witness :
    4 ≤ ([0x0b, 0x90, 0x18, 0x00, 0x01] : List Nat).length ∧
    uartFlat (writer_trace 0x0b [0x0b, 0x90, 0x18, 0x00, 0x01] ("reareq"))
      = [0x0b, 0x90, 0x18, 0x00, 0x01] ++ [checksum_full [0x0b, 0x90, 0x18, 0x00, 0x01]] :=
  ⟨by decide, C3_writer_appends_checksum 0x0b _ _ (by decide)⟩

/-- C2 (evaluation at the failing input): on dequeuing the read request
`0b 90 18 00 01`, the writer puts the signal `'RQ'` on `idisp_queue` - the
queue `read_frame` serves to the application - and puts nothing on
`iframe_queue`, the queue `ingress_dispatcher` actually reads; so the
ingress FSM never receives the `xmtrq` stimulus the claim (and the writer's
own comment) promises. -/
theorem C2_writer_signal_misrouted :
    ((writer_trace 0x0b [0x0b, 0x90, 0x18, 0x00, 0x01] ("reareq")).filter
        (fun a => match a with
          | WAct.putQ QueueName.iframeQ _ => true
          | _ => false) = [])
    ∧ ((writer_trace 0x0b [0x0b, 0x90, 0x18, 0x00, 0x01] ("reareq")).filter
        (fun a => match a with
          | WAct.putQ QueueName.idispQ _ => true
          | _ => false) = [WAct.putQ QueueName.idispQ ("RQ")])
    ∧ ingress_dispatcher_input = QueueName.iframeQ
    ∧ read_frame_input = QueueName.idispQ
    ∧ QueueName.idispQ ≠ QueueName.iframeQ := by
  refine ⟨by decide, by decide, rfl, rfl, by decide⟩

/-- C4 counterexample: with a matrix row sending `Init` to `Next` and a
state action returning `False`, the interpreter leaves the FSM in `Init`,
not in the row's new state `Next` - the state change does not commit. -/
theorem C4_counterexample :
    (bfsmStep cexMatrix (some cexStaAct) cexFsm ("go")).fsm.State
      ≠ (cexMatrix ("Init") ("go")).1
    ∧ (bfsmStep cexMatrix (some cexStaAct) cexFsm ("go")).fsm.State = ("Init") := by
  refine ⟨by decide, by decide⟩

/-- C4 amended: when the state action of the current state returns `False`,
the interpreter skips the event action and also skips the state change -
the FSM keeps its current state (the `continue` in `_Interpret` jumps over
both the action call and the assignment to `State`). -/
theorem C4_state_action_false_keeps_state
    (matrix : String → String → String × String) (sa : String → Option Bool)
    (fsm : BfsmCore) (stim : String) (h : sa fsm.State = some false) :
    (bfsmStep matrix (some sa) fsm stim).fsm.State = fsm.State
    ∧ (bfsmStep matrix (some sa) fsm stim).eventActionRan = false := by
  unfold bfsmStep
  simp only []
  rw [show ({ fsm with Stimulus := some stim } : BfsmCore).State = fsm.State from rfl, h]
  exact ⟨rfl, rfl⟩

/-- Witness for C4's amended theorem at the concrete machine of the
counterexample. -/
theorem C4_witness :
    cexStaAct (cexFsm.State) = some false
    ∧ (bfsmStep cexMatrix (some cexStaAct) cexFsm ("go")).fsm.State = cexFsm.State
    ∧ (bfsmStep cexMatrix (some cexStaAct) cexFsm ("go")).eventActionRan = false :=
  ⟨rfl, C4_state_action_false_keeps_state cexMatrix cexStaAct cexFsm ("go") rfl⟩

/-- C5 counterexample: the short ingress frame `01 02 03` (three octets, at
most the minimum frame size) is enqueued as the sentinel `b'ERR'`, whose
payload has three octets, not zero. -/
theorem C5_counterexample :
    (handle_iframe none [0x01, 0x02, 0x03]).queued = [errSentinel]
    ∧ errSentinel ≠ ([] : List Nat) := by
  refine ⟨by decide, by decide⟩

/-- C5 amended: an ingress frame the framer marks as erred (a framing-error
octet was found) or as short (two to four octets) and that is not an egress
echo is enqueued as the sentinel `b'ERR'` (the three ASCII octets E, R, R,
not an empty payload), and the classifier maps a frame to kind `errfrm`
exactly when it equals that sentinel. -/
theorem C5_errfrm_sentinel :
    (∀ (ef : Option (List Nat)) (f : List Nat) (err : Nat),
      ef ≠ some f →
      (0 < err ∨ (err = 0 ∧ 1 < f.length ∧ f.length ≤ EMSBUS_Min_frame_size)) →
      (frame_dispatch ef f err).queued = [errSentinel])
    ∧ (∀ (mode device : Nat) (g : List Nat),
      idisp_classify mode device g = Except.ok (("errfrm"), ({} : IdispDeltas))
        ↔ g = errSentinel) := by
  constructor
  · intro ef f err hef hcase
    unfold frame_dispatch
    rw [if_neg hef]
    rcases hcase with herr | ⟨herr, hlo, hhi⟩
    · rw [if_pos herr]
    · rw [if_neg (by omega), if_neg (by omega), if_neg (by omega), if_pos hhi]
  · intro mode device g
    constructor
    · intro hd
      unfold idisp_classify at hd
      split_ifs at hd with h1 h2 h3 h4 h5 h6 h7
      all_goals first
        | assumption
        | exact Except.noConfusion hd
        | (injection hd with hpair; injection hpair with hs hds;
           exact absurd hs (by decide))
    · intro hg
      subst hg
      rfl

/-- Witness for C5's amended theorem at the concrete short frame `01 02`. -/
theorem C5_witness :
    (frame_dispatch none [0x01, 0x02] 0).queued = [errSentinel] :=
  C5_errfrm_sentinel.1 none [0x01, 0x02] 0 (by decide)
    (Or.inr (by decide))

/-- A byte frame of length 1 or of legal (4..34) length passes the egress
classification stage with zero counter increments. -/
theorem edisp_step_zero_deltas (f : List Nat)
    (h : f.length = 1 ∨ (4 ≤ f.length ∧ f.length ≤ 34)) :
    ∃ ev, edisp_step (EdispInput.bytes f)
      = Except.ok { fsmEvent := ev, d := edispZero } := by
  simp only [edisp_step, EMSBUS_Min_frame_size, EMSBUS_Max_frame_size]
  split_ifs
  all_goals first
    | exact ⟨_, rfl⟩
    | omega

/-- One monitor-mode dispatcher iteration on a frame of legal or single
length neither changes `egress_total_frames` nor pushes on the writer
queue. -/
theorem monitor_iter_preserves (s : MonitorEgressState) (f : List Nat)
    (h : f.length = 1 ∨ (4 ≤ f.length ∧ f.length ≤ 34)) :
    ∀ s1, edisp_monitor_iter s f = Except.ok s1 →
      s1.total = s.total ∧ s1.eframeQueue = s.eframeQueue := by
  intro s1 hs1
  obtain ⟨ev, hev⟩ := edisp_step_zero_deltas f h
  unfold edisp_monitor_iter at hs1
  rw [hev] at hs1
  simp only [edispZero] at hs1
  cases ev with
  | none =>
    simp only [] at hs1
    cases hs1
    simp
  | some t =>
    simp only [] at hs1
    cases hm : monitorEgressMatrix s.fsmState t with
    | none => rw [hm] at hs1; cases hs1
    | some pr =>
      rw [hm] at hs1
      obtain ⟨ns, act⟩ := pr
      simp only [] at hs1
      cases hs1
      unfold applyMonitorEgressAction
      split_ifs <;> simp

/-- The monitor-mode dispatcher loop preserves `egress_total_frames` and the
writer queue over any sequence of legal-or-single-length frames. -/
theorem monitor_run_preserves (inputs : List (List Nat))
    (h : ∀ f ∈ inputs, f.length = 1 ∨ (4 ≤ f.length ∧ f.length ≤ 34)) :
    ∀ s : MonitorEgressState,
      (edisp_monitor_run s inputs).total = s.total
      ∧ (edisp_monitor_run s inputs).eframeQueue = s.eframeQueue := by
  induction inputs with
  | nil => intro s; exact ⟨rfl, rfl⟩
  | cons f r ih =>
    intro s
    have hf := h f (by simp)
    have hr : ∀ g ∈ r, g.length = 1 ∨ (4 ≤ g.length ∧ g.length ≤ 34) := by
      intro g hg; exact h g (by simp [hg])
    unfold edisp_monitor_run
    cases hi : edisp_monitor_iter s f with
    | error e => exact ⟨rfl, rfl⟩
    | ok s1 =>
      obtain ⟨ht, hq⟩ := monitor_iter_preserves s f hf s1 hi
      obtain ⟨ht2, hq2⟩ := ih hr s1
      exact ⟨ht2.trans ht, hq2.trans hq⟩

/-- C6 counterexample: in monitor mode, a single `write_frame` of the
three-octet frame `00 00 00` already drives `egress_total_frames` to 1 - the
short-frame accounting of `egress_dispatcher` runs before the (inert)
monitor FSM. -/
theorem C6_counterexample :
    (edisp_monitor_run edispMonitorInit [[0x00, 0x00, 0x00]]).total = 1
    ∧ (edisp_monitor_run edispMonitorInit [[0x00, 0x00, 0x00]]).total ≠ 0 := by
  refine ⟨by decide, by decide⟩

/-- C6 amended: in monitor mode `egress_total_frames` stays 0 over any
sequence of `write_frame` calls whose frames have length 1 or a length
between the minimum (4) and the maximum (34); frames of other lengths (for
example 0, 3 or more than 34) are counted by the dispatcher's short/long
accounting even in monitor mode and falsify the original claim. -/
theorem C6_monitor_total_zero (inputs : List (List Nat))
    (h : ∀ f ∈ inputs, f.length = 1 ∨ (4 ≤ f.length ∧ f.length ≤ 34)) :
    (edisp_monitor_run edispMonitorInit inputs).total = 0
    ∧ (edisp_monitor_run edispMonitorInit inputs).eframeQueue = [] :=
  monitor_run_preserves inputs h edispMonitorInit

/-- Witness for C6's amended theorem on a two-call workload (a write reply
and a five-octet request). -/
theorem C6_witness :
    (edisp_monitor_run edispMonitorInit [[0x01], [0x0b, 0x90, 0x18, 0x00, 0x01]]).total = 0
    ∧ (edisp_monitor_run edispMonitorInit [[0x01], [0x0b, 0x90, 0x18, 0x00, 0x01]]).eframeQueue = [] :=
  C6_monitor_total_zero _ (by decide)

/-- C7 counterexample: on the chunk `FF FF 00 00 00` (frame buffer empty)
the reader completes no frame at all - the candidate break `FF 00 00` at
offset 1 is preceded by a single escape octet (odd count, so data), no later
marker exists in the chunk, and all five octets stay buffered. -/
theorem C7_counterexample :
    (readerChunk [] [0xff, 0xff, 0x00, 0x00, 0x00]).2 = []
    ∧ (readerChunk [] [0xff, 0xff, 0x00, 0x00, 0x00]).1
        = [0xff, 0xff, 0x00, 0x00, 0x00] := by
  refine ⟨by decide, by decide⟩

/-- C7 amended: the chunk that does resolve to one escaped data byte plus a
break is `FF FF FF 00 00 00`: the marker at offset 2 is preceded by two
escape octets (even count, so a true break), the raw frame `FF FF` is handed
to the framer - whose unescape phase turns it into the single data byte
`FF` with no error - the marker is consumed, and the trailing `00` starts
the next frame buffer; the chunk `FF FF 00 00 00` of the original claim
completes no frame. -/
theorem C7_break_detection :
    readerChunk [] [0xff, 0xff, 0xff, 0x00, 0x00, 0x00] = ([0x00], [[0xff, 0xff]])
    ∧ unescape [0xff, 0xff] = ([0xff], 0)
    ∧ (readerChunk [] [0xff, 0xff, 0x00, 0x00, 0x00]).2 ≠ [[0xff, 0xff]] := by
  refine ⟨by decide, by decide, by decide⟩

/-- C8: the egress length boundaries.  A 34-octet frame is classified (by
its destination octet) and handed to the egress FSM; a frame of 35 or more
octets is counted as a long-egress error and dropped before classification
(no FSM stimulus, so nothing can reach the writer queue); a 3-octet frame is
counted as a short-egress error and dropped likewise. -/
theorem C8_egress_length_boundaries :
    (∀ f : List Nat, f.length = 34 →
      edisp_step (EdispInput.bytes f)
        = Except.ok { fsmEvent := some (if f.getD EMS_Destin 0 = 0 then ("rearep") else if f.getD EMS_Destin 0 &&& 0x80 ≠ 0 then ("reareq") else ("rporwq")), d := edispZero })
    ∧ (∀ f : List Nat, 35 ≤ f.length →
      edisp_step (EdispInput.bytes f)
        = Except.ok { fsmEvent := none, d := { total := 1, octets := f.length + 1, errShort := 0, errLong := 1 } })
    ∧ (∀ f : List Nat, f.length = 3 →
      edisp_step (EdispInput.bytes f)
        = Except.ok { fsmEvent := none, d := { total := 1, octets := f.length + 1, errShort := 1, errLong := 0 } }) := by
  refine ⟨?_, ?_, ?_⟩ <;>
    (intro f h;
     simp only [edisp_step, EMSBUS_Min_frame_size, EMSBUS_Max_frame_size];
     split_ifs <;> first | rfl | omega)

/-- Witness for C8 at frames of 34, 35 and 3 octets. -/
theorem C8_witness :
    edisp_step (EdispInput.bytes (List.replicate 34 5))
      = Except.ok { fsmEvent := some (if (List.replicate 34 5).getD EMS_Destin 0 = 0 then ("rearep") else if (List.replicate 34 5).getD EMS_Destin 0 &&& 0x80 ≠ 0 then ("reareq") else ("rporwq")), d := edispZero }
    ∧ edisp_step (EdispInput.bytes (List.replicate 35 5))
      = Except.ok { fsmEvent := none, d := { total := 1, octets := (List.replicate 35 5).length + 1, errShort := 0, errLong := 1 } }
    ∧ edisp_step (EdispInput.bytes [0x01, 0x02, 0x03])
      = Except.ok { fsmEvent := none, d := { total := 1, octets := ([0x01, 0x02, 0x03] : List Nat).length + 1, errShort := 1, errLong := 0 } } :=
  ⟨C8_egress_length_boundaries.1 _ (by decide),
   C8_egress_length_boundaries.2.1 _ (by decide),
   C8_egress_length_boundaries.2.2 _ (by decide)⟩

/-- C9: `reset()` returns `False` (and changes nothing) when no parameters
were ever recorded; with a recorded timeout it returns `True` and re-arms a
running timer carrying the recorded timeout and handler; `stop()` returns
`True` exactly when the timer was alive at the call, and leaves it not
alive. -/
theorem C9_watchdog_reset_stop :
    (∀ s : WatchdogState, s.timeout = none → wdt_reset s = (s, false))
    ∧ (∀ (s : WatchdogState) (t : Nat), s.timeout = some t →
        (wdt_reset s).2 = true
        ∧ (wdt_reset s).1.timer
            = { interval := some t, callback := s.handler, alive := true })
    ∧ (∀ s : WatchdogState,
        (wdt_stop s).2 = s.timer.alive ∧ (wdt_stop s).1.timer.alive = false) := by
  refine ⟨?_, ?_, ?_⟩
  · intro s h
    unfold wdt_reset
    rw [if_pos h]
  · intro s t h
    unfold wdt_reset wdt_arm
    rw [if_neg (by simp [h])]
    exact ⟨rfl, by simp [h]⟩
  · intro s
    unfold wdt_stop
    by_cases h : s.timer.alive
    · rw [if_pos h]
      exact ⟨h.symm, rfl⟩
    · rw [if_neg h]
      exact ⟨(Bool.not_eq_true _).mp h ▸ rfl, (Bool.not_eq_true _).mp h⟩

/-- Witness for C9: a never-started watchdog rejects `reset`; one with
recorded parameters re-arms; `stop` on it reports the alive flag. -/
theorem C9_witness :
    wdt_reset { timeout := none, handler := none, timer := { interval := none, callback := none, alive := false } } = ({ timeout := none, handler := none, timer := { interval := none, callback := none, alive := false } }, false)
    ∧ (wdt_reset { timeout := some 125, handler := some 7, timer := { interval := some 125, callback := some 7, alive := false } }).2 = true
    ∧ (wdt_stop { timeout := some 125, handler := some 7, timer := { interval := some 125, callback := some 7, alive := false } }).2 = false :=
  ⟨C9_watchdog_reset_stop.1 _ rfl,
   (C9_watchdog_reset_stop.2.1 _ 125 rfl).1,
   (C9_watchdog_reset_stop.2.2 _).1⟩

/-- C10: a single-octet egress frame whose value is neither write-reply
code (`0x01`/`0x04`) is dropped silently by the dispatcher: no counter
increment, no FSM stimulus; in particular a monitor-mode iteration leaves
the whole dispatcher state (including the writer queue) unchanged. -/
theorem C10_singleton_nonsentinel_dropped (b : Nat) (h1 : b ≠ 0x01) (h4 : b ≠ 0x04) :
    edisp_step (EdispInput.bytes [b]) = Except.ok { fsmEvent := none, d := edispZero }
    ∧ ∀ s : MonitorEgressState, edisp_monitor_iter s [b] = Except.ok s := by
  have hs : edisp_step (EdispInput.bytes [b]) = Except.ok { fsmEvent := none, d := edispZero } := by
    simp [edisp_step, EMS_Write_reply, h1, h4]
  refine ⟨hs, ?_⟩
  intro s
  unfold edisp_monitor_iter
  rw [hs]
  simp only [edispZero]
  obtain ⟨⟩ := s
  simp

/-- Witness for C10 at the octet `0x09`. -/
theorem C10_witness :
    edisp_step (EdispInput.bytes [0x09]) = Except.ok { fsmEvent := none, d := edispZero }
    ∧ edisp_monitor_iter edispMonitorInit [0x09] = Except.ok edispMonitorInit :=
  ⟨(C10_singleton_nonsentinel_dropped 0x09 (by decide) (by decide)).1,
   (C10_singleton_nonsentinel_dropped 0x09 (by decide) (by decide)).2 edispMonitorInit⟩
